import Mathlib

/-!
Verification development for the homex_open_search query-planning and
cache-orchestration engine.

The definitions below are a shallow embedding of:
  * `app/service/optimized_search_service.py`
      (`parse_query_filters`, `get_or_generate_embedding`,
       `search_keyword_only`, `hybrid_search`),
  * `app/service/redis_cache_service.py` (`RedisCacheService`),
  * `app/service/mock_cache_service.py` (`MockCacheService`),
  * `app/settings/cache_factory.py` (backend selection).

Modelling conventions:
  * Python text is modelled at the character level (`List Char`); the
    character classes `\d`, `\s`, `\w`, `[A-Z]` are modelled on their
    ASCII fragment, which is exact for all inputs appearing in the claims.
  * Each `re.search` call is modelled by a leftmost scan (`searchFirst`)
    with a hand-compiled matcher for the concrete pattern.  All the
    patterns in the source are backtrack-free under maximal munch (each
    greedy sub-pattern is followed by a sub-pattern that cannot consume
    the same characters), so maximal munch is faithful.
  * Python `float` values produced by `float(group)` on decimal literals
    are modelled as exact rationals; the only operations applied to them
    in the source (storage, `int()` truncation of a non-negative value)
    agree with the rational model on all decimal literals of moderate
    precision.
  * Redis keys are SHA-256 hashes of prefixed payload strings; they are
    modelled injectively by the payload itself (typed keys), and the three
    key prefixes are modelled as three typed stores.
  * Exceptions are modelled with `Except PyErr`; a Python function that
    catches all exceptions and returns a default is modelled by matching
    on the `Except` value.
-/

namespace HomexSearch

/-! ## Character classes (ASCII fragment of Python `re` classes) -/

def isDigitChar (c : Char) : Bool := '0' ≤ c && c ≤ '9'

/-- Python `\s` on ASCII: space, tab, newline, carriage return, form feed,
vertical tab. -/
def isSpaceChar (c : Char) : Bool :=
  c = ' ' || c = '\t' || c = '\n' || c = '\r' || c = '\x0c' || c = '\x0b'

def isUpperAZ (c : Char) : Bool := 'A' ≤ c && c ≤ 'Z'

def isLowerAZ (c : Char) : Bool := 'a' ≤ c && c ≤ 'z'

/-- Python `\w` on ASCII: letters, digits, underscore. -/
def isWordChar (c : Char) : Bool :=
  isDigitChar c || isUpperAZ c || isLowerAZ c || c = '_'

def toLowerAscii (c : Char) : Char :=
  if isUpperAZ c then Char.ofNat (c.toNat + 32) else c

def toUpperAscii (c : Char) : Char :=
  if isLowerAZ c then Char.ofNat (c.toNat - 32) else c

/-- Python `str.lower().strip()` (ASCII fragment). -/
def normChars (s : List Char) : List Char :=
  ((((s.map toLowerAscii).dropWhile isSpaceChar).reverse.dropWhile
      isSpaceChar).reverse)

def normQuery (s : String) : String := String.mk (normChars s.toList)

def upperStr (s : String) : String := String.mk (s.toList.map toUpperAscii)

/-! ## Matching primitives -/

def natOfDigits (ds : List Char) : Nat :=
  ds.foldl (fun acc c => acc * 10 + (c.toNat - '0'.toNat)) 0

/-- Match a literal, returning the rest of the input on success. -/
def dropLit : List Char → List Char → Option (List Char)
  | [], s => some s
  | _, [] => none
  | l :: ls, c :: cs => if c = l then dropLit ls cs else none

/-- Python substring containment `pat in s` on character lists. -/
def containsSub (pat : List Char) : List Char → Bool
  | [] => pat.isPrefixOf ([] : List Char)
  | c :: rest => pat.isPrefixOf (c :: rest) || containsSub pat rest

/-- Leftmost search: Python `re.search` tries every start position from the
left and returns the first full match. -/
def searchFirst (m : List Char → Option α) : List Char → Option α
  | [] => m []
  | c :: rest =>
    match m (c :: rest) with
    | some a => some a
    | none => searchFirst m rest

/-- Number literal `\d+(?:\.\d+)?` as an exact rational, with the rest of
the input. -/
def numMatchAt (s : List Char) : Option (ℚ × List Char) :=
  let (ip, r1) := s.span isDigitChar
  if ip = [] then none else
  match r1 with
  | '.' :: t =>
    let (fp, r2) := t.span isDigitChar
    if fp = [] then some (mkRat (natOfDigits ip) 1, '.' :: t)
    else some (mkRat (natOfDigits (ip ++ fp)) (10 ^ fp.length), r2)
  | _ => some (mkRat (natOfDigits ip) 1, r1)

/-- Python `int()` truncation of a non-negative rational (all values fed to
`int()` in the source are non-negative, so floor equals truncation). -/
def pyInt (q : ℚ) : Int := Rat.floor q

/-! ## Per-pattern matchers (one per `re.search` in `parse_query_filters`) -/

/-- Pattern `(\d+)\s*(?:\+)?\s*(?:bed(?:room)?s?|br)`: returns the captured
count and whether the match contains a plus sign. -/
def bedMatchAt (s : List Char) : Option (Nat × Bool) :=
  let (ds, r1) := s.span isDigitChar
  if ds = [] then none else
  let r2 := r1.dropWhile isSpaceChar
  let (plus, r3) := match r2 with
    | '+' :: t => (true, t)
    | _ => (false, r2)
  let r4 := r3.dropWhile isSpaceChar
  if "bed".toList.isPrefixOf r4 || "br".toList.isPrefixOf r4 then
    some (natOfDigits ds, plus)
  else none

/-- Pattern `(\d+(?:\.\d+)?)\s*(?:\+)?\s*(?:bath(?:room)?s?)`. -/
def bathMatchAt (s : List Char) : Option (ℚ × Bool) :=
  match numMatchAt s with
  | none => none
  | some (v, r1) =>
    let r2 := r1.dropWhile isSpaceChar
    let (plus, r3) := match r2 with
      | '+' :: t => (true, t)
      | _ => (false, r2)
    let r4 := r3.dropWhile isSpaceChar
    if "bath".toList.isPrefixOf r4 then some (v, plus) else none

/-- Tail `\s*\$?\s*([\d,]+)k?` of the monetary-bound patterns: returns the
captured digit-and-comma group and whether a `k` suffix is present in the
match. -/
def moneyTailAt (s : List Char) : Option (List Char × Bool) :=
  let r1 := s.dropWhile isSpaceChar
  let r2 := match r1 with
    | '$' :: t => t
    | _ => r1
  let r3 := r2.dropWhile isSpaceChar
  let (g, r4) := r3.span (fun c => isDigitChar c || c = ',')
  if g = [] then none
  else some (g, match r4 with | 'k' :: _ => true | _ => false)

/-- Pattern `(?:kw1|kw2|...)\s*\$?\s*([\d,]+)k?` at one position.  The
keyword heads in the source are pairwise distinct, so at most one
alternative matches at a given position. -/
def boundMatchAt (kws : List (List Char)) (s : List Char) :
    Option (List Char × Bool) :=
  kws.findSome? (fun kw =>
    match dropLit kw s with
    | some rest => moneyTailAt rest
    | none => none)

def underKws : List (List Char) :=
  ["under".toList, "below".toList, "less than".toList, "max".toList]

def overKws : List (List Char) :=
  ["over".toList, "above".toList, "more than".toList, "min".toList]

/-- Keyword alternatives `(?:sq\.?\s*ft|square\s*feet|sqft)`. -/
def sqftKeyAt (s : List Char) : Bool :=
  (match dropLit "sq".toList s with
   | some r =>
     let r1 := match r with
       | '.' :: t => t
       | _ => r
     "ft".toList.isPrefixOf (r1.dropWhile isSpaceChar)
   | none => false)
  || (match dropLit "square".toList s with
      | some r => "feet".toList.isPrefixOf (r.dropWhile isSpaceChar)
      | none => false)
  || "sqft".toList.isPrefixOf s

/-- Pattern `(\d+)\s*(?:\+)?\s*(?:sq\.?\s*ft|square\s*feet|sqft)`. -/
def sqftMatchAt (s : List Char) : Option (Nat × Bool) :=
  let (ds, r1) := s.span isDigitChar
  if ds = [] then none else
  let r2 := r1.dropWhile isSpaceChar
  let (plus, r3) := match r2 with
    | '+' :: t => (true, t)
    | _ => (false, r2)
  let r4 := r3.dropWhile isSpaceChar
  if sqftKeyAt r4 then some (natOfDigits ds, plus) else none

/-- Pattern `(\d+(?:\.\d+)?)\s*(?:\+)?\s*acres?`. -/
def acresMatchAt (s : List Char) : Option (ℚ × Bool) :=
  match numMatchAt s with
  | none => none
  | some (v, r1) =>
    let r2 := r1.dropWhile isSpaceChar
    let (plus, r3) := match r2 with
      | '+' :: t => (true, t)
      | _ => (false, r2)
    let r4 := r3.dropWhile isSpaceChar
    if "acre".toList.isPrefixOf r4 then some (v, plus) else none

/-- Pattern `(\w+)\s+county`: captures the word before `county`. -/
def countyMatchAt (s : List Char) : Option (List Char) :=
  let (w, r1) := s.span isWordChar
  if w = [] then none else
  let (sp, r2) := r1.span isSpaceChar
  if sp = [] then none else
  if "county".toList.isPrefixOf r2 then some w else none

/-- Pattern `\b([A-Z]{2})\b` over the original-case input; `prev` is the
character immediately before the current position. -/
def stateScan : Option Char → List Char → Option String
  | prev, a :: b :: rest =>
    if (match prev with | none => true | some p => !isWordChar p)
        && isUpperAZ a && isUpperAZ b
        && (match rest with | [] => true | c :: _ => !isWordChar c) then
      some (String.mk [a, b])
    else stateScan (some a) (b :: rest)
  | _, _ => none

/-! ## FilterPlan data model -/

inductive PyErr
  | valueError
  | attributeError
deriving DecidableEq

inductive BoundOp
  | gte
  | lte
deriving DecidableEq

inductive CVal
  | int (n : Int)
  | rat (q : ℚ)
  | str (s : String)
  | bool (b : Bool)
deriving DecidableEq

/-- One condition of the plan, mirroring the JSON shapes built by
`parse_query_filters`. -/
inductive Cond
  | term (field : String) (v : CVal)
  | range (field : String) (op : BoundOp) (v : CVal)
  | nestedRange (path field : String) (op : BoundOp) (v : CVal)
  | nestedTerm (path field : String) (v : CVal)
deriving DecidableEq

inductive SortOrder
  | asc
  | desc
deriving DecidableEq

structure SortClause where
  field : String
  order : SortOrder
  nestedPath : Option String
deriving DecidableEq

/-- The `filters` sub-dict: `{"must": [...], "filter": [...]}`. -/
structure Filters where
  must : List Cond
  filter : List Cond
deriving DecidableEq

/-- The parser result `{"filters": ..., "sort": ...}`. -/
structure ParseResult where
  filters : Filters
  sort : Option (List SortClause)
deriving DecidableEq

/-! ## Field-name constants from the source -/

def FIELD_BEDS : String := "property_details.allBuildingsSummary.bedroomsCount"
def FIELD_BATHS : String := "property_details.allBuildingsSummary.bathroomsCount"
def FIELD_VALUE : String :=
  "property_details.taxAssessment.assessedValue.calculatedTotalValue"
def PATH_TAX : String := "property_details.taxAssessment"
def FIELD_SQFT : String := "property_details.allBuildingsSummary.livingAreaSquareFeet"
def FIELD_CITY : String := "propertyAddress.city"
def FIELD_STATE : String := "propertyAddress.state"
def FIELD_COUNTY : String := "propertyAddress.county"
def FIELD_LANDUSE : String :=
  "property_details.siteLocation.landUseAndZoningCodes.stateLandUseDescription"
def PATH_OWNERS : String := "property_details.ownership.currentOwners.ownerNames"
def FIELD_CORP : String :=
  "property_details.ownership.currentOwners.ownerNames.isCorporate"
def FIELD_ACRES : String := "property_details.siteLocation.lot.areaAcres"

def cities : List String :=
  ["honolulu", "san francisco", "los angeles", "new york", "chicago",
   "houston", "phoenix", "philadelphia", "san antonio", "san diego",
   "dallas", "austin", "seattle", "denver", "boston", "portland",
   "miami", "atlanta", "las vegas", "detroit", "nashville", "memphis",
   "louisville", "baltimore", "milwaukee", "albuquerque", "tucson",
   "fresno", "sacramento", "kansas city", "mesa", "virginia beach",
   "oakland", "minneapolis", "tulsa", "arlington", "tampa", "orlando"]

def landUseKeywords : List (String × String) :=
  [("residential", "RESIDENTIAL"), ("commercial", "COMMERCIAL"),
   ("industrial", "INDUSTRIAL"), ("agricultural", "AGRICULTURAL"),
   ("vacant", "VACANT")]

def corpWords : List String := ["corporate", "company", "corporation", "llc", "inc"]

def cheapWords : List String := ["cheap", "affordable", "lowest", "least expensive"]
def expensiveWords : List String :=
  ["expensive", "luxury", "highest", "most valuable", "premium"]
def largestWords : List String := ["largest", "biggest", "spacious"]
def smallestWords : List String := ["smallest", "compact"]

def anyContained (ws : List String) (q : List Char) : Bool :=
  ws.any (fun w => containsSub w.toList q)

/-- Sorting logic of `parse_query_filters` (the trailing if/elif chain). -/
def sortOf (query : List Char) : Option (List SortClause) :=
  if anyContained cheapWords query then
    some [⟨FIELD_VALUE, .asc, some PATH_TAX⟩]
  else if anyContained expensiveWords query then
    some [⟨FIELD_VALUE, .desc, some PATH_TAX⟩]
  else if anyContained largestWords query then
    some [⟨FIELD_SQFT, .desc, none⟩]
  else if anyContained smallestWords query then
    some [⟨FIELD_SQFT, .asc, none⟩]
  else none

/-- Scaling heuristic applied to monetary bounds: `if 'k' in match and
value < 10000: value *= 1000`. -/
def applyK (kFlag : Bool) (v : Nat) : Nat :=
  if kFlag && v < 10000 then v * 1000 else v

/-- Python `int(group.replace(',', ''))`: raises `ValueError` when the
captured group consists only of commas. -/
def moneyValue (g : List Char) : Except PyErr Nat :=
  let ds := g.filter (fun c => c ≠ ',')
  if ds = [] then .error .valueError else .ok (natOfDigits ds)

/-- Whether a matched monetary-bound group contains no digit (only commas),
which makes `int(group.replace(',', ''))` raise. -/
def groupDigitless : Option (List Char × Bool) → Bool
  | some (g, _) => decide (g.filter (fun c => c ≠ ',') = [])
  | none => false

/-- Whether one of the two monetary-bound patterns of the parser matches a
digit-free group on this input. -/
def moneyDegenerate (q : String) : Bool :=
  groupDigitless (searchFirst (boundMatchAt underKws) (normQuery q).toList) ||
  groupDigitless (searchFirst (boundMatchAt overKws) (normQuery q).toList)

/-- The pure computation of `parse_query_filters` (source lines 25-180,
between the cache lookup and the cache store).  The `must` and `filter`
sequences are produced in the source's append order. -/
def parse_query_filters_core (user_input : String) : Except PyErr ParseResult := do
  let query := (normQuery user_input).toList
  let (mustBed, filtBed) :=
    match searchFirst bedMatchAt query with
    | some (beds, true) => ([], [Cond.range FIELD_BEDS .gte (.int beds)])
    | some (beds, false) => ([Cond.term FIELD_BEDS (.int beds)], [])
    | none => ([], [])
  let (mustBath, filtBath) :=
    match searchFirst bathMatchAt query with
    | some (baths, true) => ([], [Cond.range FIELD_BATHS .gte (.rat baths)])
    | some (baths, false) => ([Cond.term FIELD_BATHS (.int (pyInt baths))], [])
    | none => ([], [])
  let filtUnder ←
    match searchFirst (boundMatchAt underKws) query with
    | some (g, kf) => do
        let v ← moneyValue g
        pure [Cond.nestedRange PATH_TAX FIELD_VALUE .lte (.int (applyK kf v))]
    | none => pure ([] : List Cond)
  let filtOver ←
    match searchFirst (boundMatchAt overKws) query with
    | some (g, kf) => do
        let v ← moneyValue g
        pure [Cond.nestedRange PATH_TAX FIELD_VALUE .gte (.int (applyK kf v))]
    | none => pure ([] : List Cond)
  let filtSqft :=
    match searchFirst sqftMatchAt query with
    | some (sqft, true) => [Cond.range FIELD_SQFT .gte (.int sqft)]
    | _ => []
  let mustCity :=
    match cities.find? (fun c => containsSub c.toList query) with
    | some c => [Cond.term FIELD_CITY (.str (upperStr c))]
    | none => []
  let mustState :=
    match stateScan none user_input.toList with
    | some st => [Cond.term FIELD_STATE (.str st)]
    | none => []
  let mustCounty :=
    match searchFirst countyMatchAt query with
    | some w => [Cond.term FIELD_COUNTY (.str (upperStr (String.mk w)))]
    | none => []
  let mustLand :=
    match landUseKeywords.find? (fun kv => containsSub kv.1.toList query) with
    | some kv => [Cond.term FIELD_LANDUSE (.str kv.2)]
    | none => []
  let filtCorp :=
    if anyContained corpWords query then
      [Cond.nestedTerm PATH_OWNERS FIELD_CORP (.bool true)]
    else []
  let filtAcres :=
    match searchFirst acresMatchAt query with
    | some (a, true) => [Cond.range FIELD_ACRES .gte (.rat a)]
    | _ => []
  pure
    { filters :=
        { must := mustBed ++ mustBath ++ mustCity ++ mustState ++
            mustCounty ++ mustLand
          filter := filtBed ++ filtBath ++ filtUnder ++ filtOver ++
            filtSqft ++ filtCorp ++ filtAcres }
      sort := sortOf query }

instance {ε α : Type} [DecidableEq ε] [DecidableEq α] : DecidableEq (Except ε α)
  | .ok a, .ok b =>
      if h : a = b then .isTrue (h ▸ rfl)
      else .isFalse (fun hh => h (Except.ok.inj hh))
  | .error e, .error f =>
      if h : e = f then .isTrue (h ▸ rfl)
      else .isFalse (fun hh => h (Except.error.inj hh))
  | .ok _, .error _ => .isFalse (fun hh => Except.noConfusion hh)
  | .error _, .ok _ => .isFalse (fun hh => Except.noConfusion hh)

/-! ## Engine query bodies (`search_keyword_only` / `hybrid_search`) -/

/-- A clause of the top-level `bool.must` array: either the knn vector
clause or a parsed condition. -/
inductive QueryClause
  | knnClause (field : String) (vector : List ℚ) (k : Nat)
  | cond (c : Cond)
deriving DecidableEq

/-- Top-level query: `match_all` or a `bool` query.  An empty `must`/
`filter` list models the corresponding key being absent from the dict. -/
inductive TopQuery
  | match_all
  | boolQ (must : List QueryClause) (filter : List Cond)
deriving DecidableEq

structure QueryBody where
  size : Nat
  offset : Int
  query : TopQuery
  sort : Option (List SortClause)
  timeout : Option String
  request_timeout : Nat
deriving DecidableEq

/-- Python truthiness of the `sort` entry: `if parsed.get("sort")`. -/
def sortIfTruthy : Option (List SortClause) → Option (List SortClause)
  | some (x :: t) => some (x :: t)
  | _ => none

/-- Query body built by `search_keyword_only` (source lines 222-244):
`must`/`filter` keys present when non-empty, `match_all` when the bool
dict stays empty, `request_timeout=2`. -/
def build_keyword_query (parsed : ParseResult) (page size : Nat) : QueryBody :=
  { size := size
    offset := ((page : Int) - 1) * (size : Int)
    query :=
      if parsed.filters.must = [] ∧ parsed.filters.filter = [] then .match_all
      else .boolQ (parsed.filters.must.map .cond) parsed.filters.filter
    sort := sortIfTruthy parsed.sort
    timeout := none
    request_timeout := 2 }

/-- Query body built by `hybrid_search` (source lines 329-362): the knn
clause first in `must`, then the plan's `must` conditions; the plan's
`filter` conditions as the boolean gate; `timeout="1000ms"`,
`request_timeout=3`. -/
def build_hybrid_query (query_vector : List ℚ) (parsed : ParseResult)
    (page size : Nat) : QueryBody :=
  { size := size
    offset := ((page : Int) - 1) * (size : Int)
    query := .boolQ
      (QueryClause.knnClause "description_vector" query_vector 100 ::
        parsed.filters.must.map .cond)
      parsed.filters.filter
    sort := sortIfTruthy parsed.sort
    timeout := some "1000ms"
    request_timeout := 3 }

/-- Whether a query body contains a vector-similarity (knn) clause. -/
def hasKnn (b : QueryBody) : Bool :=
  match b.query with
  | .match_all => false
  | .boolQ must _ => must.any (fun cl => match cl with
      | .knnClause _ _ _ => true
      | .cond _ => false)

/-- Performance metadata attached to responses; the timing floats are not
modelled, only the discrete routing tags the claims talk about. -/
structure Performance where
  method : String
  from_cache : Bool
  cache_layer : Option String
deriving DecidableEq

structure SearchResponse (Hits : Type) where
  hits : Hits
  performance : Performance
deriving DecidableEq

/-! ## Cache backends -/

/-- Result-cache key payload
`f"{query.lower().strip()}_{page}_{json.dumps(filters, sort_keys=True)}"`
(the SHA-256 of this payload is modelled injectively by the payload). -/
structure QueryKey where
  normText : String
  page : Nat
  filters : Filters
deriving DecidableEq

/-- A Redis key in one of the three namespaces used by the search path. -/
inductive RKey
  | queryK (k : QueryKey)
  | filterK (normText : String)
  | embedK (normText : String)
deriving DecidableEq

/-- The networked backend: three (hashed, prefixed) keyspaces modelled as
typed stores, plus per-key I/O failure switches modelling an unavailable
or erroring Redis. -/
structure RedisClient (Hits : Type) where
  respStore : QueryKey → Option (SearchResponse Hits)
  planStore : String → Option ParseResult
  embStore : String → Option (List ℚ)
  getFails : RKey → Bool
  setFails : RKey → Bool

/-- Raw `redis_client.get` on the filter namespace: may raise. -/
def redisRawGetPlan (c : RedisClient Hits) (key : String) :
    Except String (Option ParseResult) :=
  if c.getFails (.filterK key) then .error "ConnectionError" else .ok (c.planStore key)

def redisRawGetEmb (c : RedisClient Hits) (key : String) :
    Except String (Option (List ℚ)) :=
  if c.getFails (.embedK key) then .error "ConnectionError" else .ok (c.embStore key)

def redisRawGetResp (c : RedisClient Hits) (key : QueryKey) :
    Except String (Option (SearchResponse Hits)) :=
  if c.getFails (.queryK key) then .error "ConnectionError" else .ok (c.respStore key)

/-- Store update in the filter namespace. -/
def planWrite (c : RedisClient Hits) (key : String) (v : ParseResult) :
    RedisClient Hits :=
  { c with planStore := fun k => if k = key then some v else c.planStore k }

/-- Store update in the embedding namespace. -/
def embWrite (c : RedisClient Hits) (key : String) (v : List ℚ) :
    RedisClient Hits :=
  { c with embStore := fun k => if k = key then some v else c.embStore k }

/-- Store update in the result namespace. -/
def respWrite (c : RedisClient Hits) (key : QueryKey) (v : SearchResponse Hits) :
    RedisClient Hits :=
  { c with respStore := fun k => if k = key then some v else c.respStore k }

/-- Raw `redis_client.setex` on the filter namespace: may raise. -/
def redisRawSetPlan (c : RedisClient Hits) (key : String) (v : ParseResult) :
    Except String (RedisClient Hits) :=
  if c.setFails (.filterK key) then .error "ConnectionError"
  else .ok (planWrite c key v)

def redisRawSetEmb (c : RedisClient Hits) (key : String) (v : List ℚ) :
    Except String (RedisClient Hits) :=
  if c.setFails (.embedK key) then .error "ConnectionError"
  else .ok (embWrite c key v)

def redisRawSetResp (c : RedisClient Hits) (key : QueryKey)
    (v : SearchResponse Hits) : Except String (RedisClient Hits) :=
  if c.setFails (.queryK key) then .error "ConnectionError"
  else .ok (respWrite c key v)

/-- The cache-service interface consumed by the search path; each
operation may raise (`Except PyErr`) and returns the updated backend
state.  The stats/popularity side effects of the source are not part of
the search path's observable behaviour and are not modelled. -/
structure CacheService (σ : Type) (Hits : Type) where
  get_parsed_filters : σ → String → Except PyErr (Option ParseResult)
  set_parsed_filters : σ → String → ParseResult → Except PyErr σ
  get_embedding : σ → String → Except PyErr (Option (List ℚ))
  set_embedding : σ → String → List ℚ → Except PyErr σ
  get_query_result : σ → String → Nat → Filters → Except PyErr (Option (SearchResponse Hits))
  set_query_result : σ → String → Nat → Filters → SearchResponse Hits → Except PyErr σ

/-- `RedisCacheService` (redis_cache_service.py): every raw backend error
is caught at the service boundary — a failed `get` is a miss, a failed
`setex` a no-op — so no operation ever raises. -/
def redisService (Hits : Type) : CacheService (RedisClient Hits) Hits where
  get_parsed_filters c q :=
    .ok (match redisRawGetPlan c (normQuery q) with
      | .error _ => none
      | .ok v => v)
  set_parsed_filters c q v :=
    .ok (match redisRawSetPlan c (normQuery q) v with
      | .error _ => c
      | .ok c2 => c2)
  get_embedding c text :=
    .ok (match redisRawGetEmb c (normQuery text) with
      | .error _ => none
      | .ok v => v)
  set_embedding c text v :=
    .ok (match redisRawSetEmb c (normQuery text) v with
      | .error _ => c
      | .ok c2 => c2)
  get_query_result c q page filters :=
    .ok (match redisRawGetResp c ⟨normQuery q, page, filters⟩ with
      | .error _ => none
      | .ok v => v)
  set_query_result c q page filters r :=
    .ok (match redisRawSetResp c ⟨normQuery q, page, filters⟩ r with
      | .error _ => c
      | .ok c2 => c2)

/-- `MockCacheService` (mock_cache_service.py): the class body defines only
`__init__`, none of the cache methods, so every cache call on the
in-process backend raises `AttributeError`. -/
def mockService (Hits : Type) : CacheService Unit Hits where
  get_parsed_filters _ _ := .error .attributeError
  set_parsed_filters _ _ _ := .error .attributeError
  get_embedding _ _ := .error .attributeError
  set_embedding _ _ _ := .error .attributeError
  get_query_result _ _ _ _ := .error .attributeError
  set_query_result _ _ _ _ _ := .error .attributeError

/-! ## The search pipeline -/

/-- `parse_query_filters` (source lines 10-185): filter-cache lookup, pure
parse on miss, store.  A truthy cached dict short-circuits. -/
def parse_query_filters (cs : CacheService σ Hits) (st : σ)
    (user_input : String) : Except PyErr (ParseResult × σ) := do
  let cached ← cs.get_parsed_filters st user_input
  match cached with
  | some r => pure (r, st)
  | none => do
    let r ← parse_query_filters_core user_input
    let st2 ← cs.set_parsed_filters st user_input r
    pure (r, st2)

/-- `get_or_generate_embedding` (source lines 188-212): embedding-cache
lookup (truthiness: an empty cached list does not count as a hit), call
the generator on miss, cache a truthy result. -/
def get_or_generate_embedding (gen : String → Option (List ℚ))
    (cs : CacheService σ Hits) (st : σ) (text : String) :
    Except PyErr (Option (List ℚ) × σ) := do
  let cached ← cs.get_embedding st text
  match cached with
  | some (e :: es) => pure (some (e :: es), st)
  | _ =>
    match gen text with
    | some (e :: es) => do
      let st2 ← cs.set_embedding st text (e :: es)
      pure (some (e :: es), st2)
    | emb => pure (emb, st)

/-- `search_keyword_only` (source lines 215-267): build the pure-filter
body, execute; an engine exception is caught and `None` is returned.  The
second component records the engine invocations. -/
def search_keyword_only (engine : QueryBody → Except String Hits)
    (parsed : ParseResult) (page size : Nat) :
    Option (SearchResponse Hits) × List QueryBody :=
  let body := build_keyword_query parsed page size
  match engine body with
  | .ok h => (some ⟨h, ⟨"keyword_only", false, none⟩⟩, [body])
  | .error _ => (none, [body])

/-- Execution stage of `hybrid_search` (source lines 319-394): keyword
fallback on a falsy vector (`if not query_vector`), otherwise the hybrid
body, execution, and the conditional result-cache store. -/
def hybrid_execute (engine : QueryBody → Except String Hits)
    (cs : CacheService σ Hits) (st1 : σ) (parsed : ParseResult)
    (user_query : String) (page size : Nat) (use_cache : Bool)
    (query_vector : Option (List ℚ)) :
    Except PyErr (Option (SearchResponse Hits) × σ × List QueryBody) :=
  match query_vector with
  | some (e :: es) =>
    let body := build_hybrid_query (e :: es) parsed page size
    (match engine body with
     | .ok h =>
       let response : SearchResponse Hits := ⟨h, ⟨"hybrid_semantic", false, some "none"⟩⟩
       if use_cache && page = 1 then do
         let st2 ← cs.set_query_result st1 user_query page parsed.filters response
         pure (some response, st2, [body])
       else
         pure (some response, st1, [body])
     | .error _ => pure (none, st1, [body]))
  | _ =>
    let (r, t) := search_keyword_only engine parsed page size
    pure (r, st1, t)

/-- Continuation of `hybrid_search` after the result-cache layer (source
lines 314-394): embedding, then the execution stage. -/
def hybrid_search_rest (gen : String → Option (List ℚ))
    (engine : QueryBody → Except String Hits) (cs : CacheService σ Hits)
    (st : σ) (parsed : ParseResult) (user_query : String)
    (page size : Nat) (use_cache : Bool) :
    Except PyErr (Option (SearchResponse Hits) × σ × List QueryBody) := do
  let (query_vector, st1) ← get_or_generate_embedding gen cs st user_query
  hybrid_execute engine cs st1 parsed user_query page size use_cache query_vector

/-- `hybrid_search` (source lines 270-394): result-cache layer (only when
`use_cache`), then `hybrid_search_rest`.  A result-cache hit is returned
with its performance metadata overwritten. -/
def hybrid_search (gen : String → Option (List ℚ))
    (engine : QueryBody → Except String Hits) (cs : CacheService σ Hits)
    (st : σ) (user_query : String) (page size : Nat) (use_cache : Bool) :
    Except PyErr (Option (SearchResponse Hits) × σ × List QueryBody) := do
  let (parsed, st0) ← parse_query_filters cs st user_query
  if use_cache then do
    let cached ← cs.get_query_result st0 user_query page parsed.filters
    match cached with
    | some r =>
      pure (some { r with performance := ⟨"cached_full_result", true, some "query_result"⟩ },
        st0, [])
    | none => hybrid_search_rest gen engine cs st0 parsed user_query page size use_cache
  else
    hybrid_search_rest gen engine cs st0 parsed user_query page size use_cache


/-! ## Concrete test fixtures (used by witnesses and counterexamples) -/

/-- A fresh backend: empty stores, no injected I/O failures. -/
def emptyClient (Hits : Type) : RedisClient Hits where
  respStore _ := none
  planStore _ := none
  embStore _ := none
  getFails _ := false
  setFails _ := false

/-- An embedding collaborator that always fails (returns `None`). -/
def genNone : String → Option (List ℚ) := fun _ => none

/-- An embedding collaborator that always returns a one-dimensional vector. -/
def genOne : String → Option (List ℚ) := fun _ => some [1]

/-- An engine that always succeeds with a fixed hit payload. -/
def engineOk : QueryBody → Except String Nat := fun _ => .ok 42

/-- An engine that always raises. -/
def engineFail : QueryBody → Except String Nat := fun _ => .error "boom"

/-- The plan parsed from the empty query: no conditions, no sort. -/
def emptyPlanVal : ParseResult := ⟨⟨[], []⟩, none⟩

/-- The plan parsed from `"3 bed"`. -/
def plan3bed : ParseResult := ⟨⟨[Cond.term FIELD_BEDS (.int 3)], []⟩, none⟩

/-- Projection of a search run used by concrete witnesses. -/
def runOutcome
    (r : Except PyErr (Option (SearchResponse Nat) × RedisClient Nat × List QueryBody)) :
    Option (SearchResponse Nat) × RedisClient Nat × List QueryBody :=
  match r with
  | .ok out => out
  | .error _ => (none, emptyClient Nat, [])

/-- Keyword-fallback run: embedding fails, engine succeeds, caching on. -/
def c2run : Option (SearchResponse Nat) × RedisClient Nat × List QueryBody :=
  runOutcome (hybrid_search genNone engineOk (redisService Nat) (emptyClient Nat)
    "3 bed" 1 20 true)

/-- Hybrid first-page run with caching on. -/
def c8run : Option (SearchResponse Nat) × RedisClient Nat × List QueryBody :=
  runOutcome (hybrid_search genOne engineOk (redisService Nat) (emptyClient Nat)
    "" 1 20 true)

/-- Hybrid second-page run with caching on. -/
def c8run2 : Option (SearchResponse Nat) × RedisClient Nat × List QueryBody :=
  runOutcome (hybrid_search genOne engineOk (redisService Nat) (emptyClient Nat)
    "" 2 20 true)



variable {Hits : Type}

/-! ## Helper lemmas: Redis service operation shapes -/

theorem planWrite_proj (c : RedisClient Hits) (key : String) (v : ParseResult) :
    (planWrite c key v).respStore = c.respStore ∧
    (planWrite c key v).embStore = c.embStore ∧
    (planWrite c key v).getFails = c.getFails ∧
    (planWrite c key v).setFails = c.setFails ∧
    (planWrite c key v).planStore = fun k => if k = key then some v else c.planStore k :=
  ⟨rfl, rfl, rfl, rfl, rfl⟩

theorem embWrite_proj (c : RedisClient Hits) (key : String) (v : List ℚ) :
    (embWrite c key v).respStore = c.respStore ∧
    (embWrite c key v).planStore = c.planStore ∧
    (embWrite c key v).getFails = c.getFails ∧
    (embWrite c key v).setFails = c.setFails ∧
    (embWrite c key v).embStore = fun k => if k = key then some v else c.embStore k :=
  ⟨rfl, rfl, rfl, rfl, rfl⟩

theorem respWrite_proj (c : RedisClient Hits) (key : QueryKey) (v : SearchResponse Hits) :
    (respWrite c key v).planStore = c.planStore ∧
    (respWrite c key v).embStore = c.embStore ∧
    (respWrite c key v).getFails = c.getFails ∧
    (respWrite c key v).setFails = c.setFails ∧
    (respWrite c key v).respStore = fun k => if k = key then some v else c.respStore k :=
  ⟨rfl, rfl, rfl, rfl, rfl⟩

theorem parse_redis_eq (c : RedisClient Hits) (q : String) :
    parse_query_filters (redisService Hits) c q =
      match (if c.getFails (.filterK (normQuery q)) then none
             else c.planStore (normQuery q)) with
      | some r => .ok (r, c)
      | none =>
        match parse_query_filters_core q with
        | .ok r => .ok (r,
            if c.setFails (.filterK (normQuery q)) then c
            else planWrite c (normQuery q) r)
        | .error e => .error e := by
  simp only [parse_query_filters, redisService, redisRawGetPlan, redisRawSetPlan]
  cases hg : c.getFails (RKey.filterK (normQuery q)) <;>
    simp only [Bind.bind, Except.bind, if_true, if_false, Bool.false_eq_true, reduceIte]
  · cases hp : c.planStore (normQuery q) <;>
      simp only []
    · cases hc : parse_query_filters_core q <;>
        cases hs : c.setFails (RKey.filterK (normQuery q)) <;>
        simp [hs, Pure.pure, Except.pure]
    · rfl
  · cases hc : parse_query_filters_core q <;>
      cases hs : c.setFails (RKey.filterK (normQuery q)) <;>
      simp [hs, Pure.pure, Except.pure]

theorem embed_redis_eq (gen : String → Option (List ℚ)) (c : RedisClient Hits)
    (q : String) :
    get_or_generate_embedding gen (redisService Hits) c q =
      match (if c.getFails (.embedK (normQuery q)) then none
             else c.embStore (normQuery q)) with
      | some (e :: es) => .ok (some (e :: es), c)
      | _ =>
        match gen q with
        | some (e :: es) => .ok (some (e :: es),
            if c.setFails (.embedK (normQuery q)) then c
            else embWrite c (normQuery q) (e :: es))
        | emb => .ok (emb, c) := by
  simp only [get_or_generate_embedding, redisService, redisRawGetEmb, redisRawSetEmb]
  cases hg : c.getFails (RKey.embedK (normQuery q)) <;>
    simp only [Bind.bind, Except.bind, Bool.false_eq_true, reduceIte]
  · cases hp : c.embStore (normQuery q) with
    | none =>
      cases hgen : gen q with
      | none => simp [Pure.pure, Except.pure]
      | some l =>
        cases l <;> cases hs : c.setFails (RKey.embedK (normQuery q)) <;>
          simp [hs, Pure.pure, Except.pure]
    | some l =>
      cases l with
      | nil =>
        cases hgen : gen q with
        | none => simp [Pure.pure, Except.pure]
        | some l2 =>
          cases l2 <;> cases hs : c.setFails (RKey.embedK (normQuery q)) <;>
            simp [hs, Pure.pure, Except.pure]
      | cons e es => simp [Pure.pure, Except.pure]
  · cases hgen : gen q with
    | none => simp [Pure.pure, Except.pure]
    | some l =>
      cases l <;> cases hs : c.setFails (RKey.embedK (normQuery q)) <;>
        simp [hs, Pure.pure, Except.pure]

theorem redis_get_query_eq (c : RedisClient Hits) (q : String) (page : Nat)
    (filters : Filters) :
    (redisService Hits).get_query_result c q page filters =
      .ok (if c.getFails (.queryK ⟨normQuery q, page, filters⟩) then none
           else c.respStore ⟨normQuery q, page, filters⟩) := by
  simp only [redisService, redisRawGetResp]
  cases hg : c.getFails (RKey.queryK ⟨normQuery q, page, filters⟩) <;> simp

theorem redis_set_query_eq (c : RedisClient Hits) (q : String) (page : Nat)
    (filters : Filters) (r : SearchResponse Hits) :
    (redisService Hits).set_query_result c q page filters r =
      .ok (if c.setFails (.queryK ⟨normQuery q, page, filters⟩) then c
           else respWrite c ⟨normQuery q, page, filters⟩ r) := by
  simp only [redisService, redisRawSetResp]
  cases hs : c.setFails (RKey.queryK ⟨normQuery q, page, filters⟩) <;> simp

/-! ## Helper lemmas: state preservation -/

theorem parse_preserves (c : RedisClient Hits) (q : String) (p : ParseResult)
    (c0 : RedisClient Hits)
    (hp : parse_query_filters (redisService Hits) c q = .ok (p, c0)) :
    c0.respStore = c.respStore ∧ c0.embStore = c.embStore ∧
    c0.getFails = c.getFails ∧ c0.setFails = c.setFails := by
  rw [parse_redis_eq] at hp
  split at hp
  · simp only [Except.ok.injEq, Prod.mk.injEq] at hp
    rw [← hp.2]
    exact ⟨rfl, rfl, rfl, rfl⟩
  · split at hp
    · split at hp <;>
      · simp only [Except.ok.injEq, Prod.mk.injEq] at hp
        rw [← hp.2]
        exact ⟨rfl, rfl, rfl, rfl⟩
    · cases hp

theorem embed_preserves (gen : String → Option (List ℚ)) (c : RedisClient Hits)
    (q : String) (r : Option (List ℚ)) (c1 : RedisClient Hits)
    (hp : get_or_generate_embedding gen (redisService Hits) c q = .ok (r, c1)) :
    c1.respStore = c.respStore ∧ c1.planStore = c.planStore ∧
    c1.getFails = c.getFails ∧ c1.setFails = c.setFails := by
  rw [embed_redis_eq] at hp
  split at hp
  · simp only [Except.ok.injEq, Prod.mk.injEq] at hp
    rw [← hp.2]
    exact ⟨rfl, rfl, rfl, rfl⟩
  · split at hp
    · split at hp <;>
      · simp only [Except.ok.injEq, Prod.mk.injEq] at hp
        rw [← hp.2]
        exact ⟨rfl, rfl, rfl, rfl⟩
    · simp only [Except.ok.injEq, Prod.mk.injEq] at hp
      rw [← hp.2]
      exact ⟨rfl, rfl, rfl, rfl⟩

/-- Effect of the execution stage on the result-cache store: unchanged,
except for a single first-page write guarded by `use_cache`. -/
theorem exec_respStore_cases (engine : QueryBody → Except String Hits)
    (st1 : RedisClient Hits) (parsed : ParseResult) (q : String)
    (page size : Nat) (u : Bool) (qv : Option (List ℚ))
    (r2 : Option (SearchResponse Hits)) (c3 : RedisClient Hits) (t3 : List QueryBody)
    (hr : hybrid_execute engine (redisService Hits) st1 parsed q page size u qv
      = .ok (r2, c3, t3)) :
    c3.respStore = st1.respStore ∨
    (u = true ∧ page = 1 ∧ ∃ resp, c3.respStore = fun k =>
      if k = ⟨normQuery q, page, parsed.filters⟩ then some resp else st1.respStore k) := by
  match qv with
  | none =>
    simp only [hybrid_execute, Pure.pure, Except.pure, Except.ok.injEq, Prod.mk.injEq] at hr
    left; rw [← hr.2.1]
  | some [] =>
    simp only [hybrid_execute, Pure.pure, Except.pure, Except.ok.injEq, Prod.mk.injEq] at hr
    left; rw [← hr.2.1]
  | some (e :: es) =>
    simp only [hybrid_execute] at hr
    cases he : engine (build_hybrid_query (e :: es) parsed page size) <;>
      simp only [he, Pure.pure, Except.pure, Except.ok.injEq, Prod.mk.injEq] at hr
    case error err =>
      left; rw [← hr.2.1]
    case ok h =>
      cases hguard : u && decide (page = 1) with
      | false =>
        simp only [hguard, Bool.false_eq_true, reduceIte, Pure.pure, Except.pure,
          Except.ok.injEq, Prod.mk.injEq] at hr
        left; rw [← hr.2.1]
      | true =>
        have hu : u = true := (Bool.and_eq_true_iff.mp hguard).1
        have hpage1 : page = 1 := of_decide_eq_true (Bool.and_eq_true_iff.mp hguard).2
        simp only [hguard, reduceIte, redis_set_query_eq, Bind.bind, Except.bind,
          Pure.pure, Except.pure, Except.ok.injEq, Prod.mk.injEq] at hr
        cases hsf : st1.setFails (RKey.queryK ⟨normQuery q, page, parsed.filters⟩) <;>
          simp only [hsf, Bool.false_eq_true, reduceIte] at hr
        · right
          exact ⟨hu, hpage1, ⟨h, ⟨"hybrid_semantic", false, some "none"⟩⟩,
            by rw [← hr.2.1]; rfl⟩
        · left; rw [← hr.2.1]


/-- Decomposition of `hybrid_search` over the Redis backend: a successful
call is either a result-cache hit (with the performance tag overwritten)
or a pass-through to the post-cache stage. -/
theorem search_decompose (gen : String → Option (List ℚ))
    (engine : QueryBody → Except String Hits) (c : RedisClient Hits)
    (q : String) (page size : Nat) (u : Bool)
    (r : Option (SearchResponse Hits)) (c2 : RedisClient Hits) (t : List QueryBody)
    (hs : hybrid_search gen engine (redisService Hits) c q page size u = .ok (r, c2, t)) :
    ∃ parsed c0, parse_query_filters (redisService Hits) c q = .ok (parsed, c0) ∧
      ((∃ rr, u = true ∧
          (if c0.getFails (.queryK ⟨normQuery q, page, parsed.filters⟩) then none
           else c0.respStore ⟨normQuery q, page, parsed.filters⟩) = some rr ∧
          r = some { rr with performance := ⟨"cached_full_result", true, some "query_result"⟩ } ∧
          c2 = c0 ∧ t = []) ∨
        hybrid_search_rest gen engine (redisService Hits) c0 parsed q page size u
          = .ok (r, c2, t)) := by
  cases hp : parse_query_filters (redisService Hits) c q with
  | error e =>
    simp only [hybrid_search, hp, Bind.bind, Except.bind] at hs
    cases hs
  | ok pr =>
    obtain ⟨parsed, c0⟩ := pr
    refine ⟨parsed, c0, rfl, ?_⟩
    simp only [hybrid_search, hp, Bind.bind, Except.bind] at hs
    cases u with
    | false =>
      simp only [Bool.false_eq_true, reduceIte] at hs
      exact Or.inr hs
    | true =>
      simp only [redis_get_query_eq, reduceIte] at hs
      cases hv : (if c0.getFails (.queryK ⟨normQuery q, page, parsed.filters⟩) then none
          else c0.respStore ⟨normQuery q, page, parsed.filters⟩) with
      | none =>
        rw [hv] at hs
        exact Or.inr hs
      | some rr =>
        rw [hv] at hs
        simp only [Pure.pure, Except.pure, Except.ok.injEq, Prod.mk.injEq] at hs
        exact Or.inl ⟨rr, rfl, rfl, hs.1.symm, hs.2.1.symm, hs.2.2.symm⟩

/-- Decomposition of the post-cache stage into the embedding outcome and
the execution stage. -/
theorem rest_decompose (gen : String → Option (List ℚ))
    (engine : QueryBody → Except String Hits) (c0 : RedisClient Hits)
    (parsed : ParseResult) (q : String) (page size : Nat) (u : Bool)
    (out : Option (SearchResponse Hits) × RedisClient Hits × List QueryBody)
    (hr : hybrid_search_rest gen engine (redisService Hits) c0 parsed q page size u
      = .ok out) :
    ∃ qv c1, get_or_generate_embedding gen (redisService Hits) c0 q = .ok (qv, c1) ∧
      hybrid_execute engine (redisService Hits) c1 parsed q page size u qv = .ok out := by
  cases he : get_or_generate_embedding gen (redisService Hits) c0 q with
  | error e =>
    simp only [hybrid_search_rest, he, Bind.bind, Except.bind] at hr
    cases hr
  | ok pr =>
    obtain ⟨qv, c1⟩ := pr
    simp only [hybrid_search_rest, he, Bind.bind, Except.bind] at hr
    exact ⟨qv, c1, rfl, hr⟩


theorem keyword_query_no_knn (parsed : ParseResult) (page size : Nat) :
    hasKnn (build_keyword_query parsed page size) = false := by
  simp only [hasKnn, build_keyword_query]
  by_cases hq : parsed.filters.must = [] ∧ parsed.filters.filter = []
  · simp [hq]
  · simp only [hq, reduceIte]
    simp [List.any_map, Function.comp]

theorem embed_none (gen : String → Option (List ℚ)) (c0 : RedisClient Hits)
    (q : String) (hemb : c0.embStore (normQuery q) = none) (hgen : gen q = none) :
    get_or_generate_embedding gen (redisService Hits) c0 q = .ok (none, c0) := by
  rw [embed_redis_eq]
  cases hg : c0.getFails (RKey.embedK (normQuery q)) <;> simp [hemb, hgen]

theorem embed_ok_shape (gen : String → Option (List ℚ)) (c0 : RedisClient Hits)
    (q : String) :
    ∃ qv c1, get_or_generate_embedding gen (redisService Hits) c0 q = .ok (qv, c1) := by
  rw [embed_redis_eq]
  split
  · exact ⟨_, _, rfl⟩
  · split
    · exact ⟨_, _, rfl⟩
    · exact ⟨_, _, rfl⟩

theorem search_to_rest (gen : String → Option (List ℚ))
    (engine : QueryBody → Except String Hits) (c : RedisClient Hits)
    (q : String) (page size : Nat) (u : Bool) (parsed : ParseResult)
    (c0 : RedisClient Hits)
    (hparse : parse_query_filters (redisService Hits) c q = .ok (parsed, c0))
    (hmiss : c0.respStore ⟨normQuery q, page, parsed.filters⟩ = none) :
    hybrid_search gen engine (redisService Hits) c q page size u =
      hybrid_search_rest gen engine (redisService Hits) c0 parsed q page size u := by
  simp only [hybrid_search, hparse, Bind.bind, Except.bind]
  cases u with
  | false => simp
  | true =>
    simp only [redis_get_query_eq, reduceIte]
    cases hg : c0.getFails (RKey.queryK ⟨normQuery q, page, parsed.filters⟩) <;>
      simp [hmiss]

theorem exec_engine_fail (engine : QueryBody → Except String Hits)
    (st1 : RedisClient Hits) (parsed : ParseResult) (q : String)
    (page size : Nat) (u : Bool) (qv : Option (List ℚ)) (errc : String)
    (hfail : ∀ b, engine b = .error errc) :
    ∃ b, hybrid_execute engine (redisService Hits) st1 parsed q page size u qv =
      .ok (none, st1, [b]) := by
  match qv with
  | none =>
    exact ⟨build_keyword_query parsed page size,
      by simp [hybrid_execute, search_keyword_only, hfail, Pure.pure, Except.pure]⟩
  | some [] =>
    exact ⟨build_keyword_query parsed page size,
      by simp [hybrid_execute, search_keyword_only, hfail, Pure.pure, Except.pure]⟩
  | some (e :: es) =>
    exact ⟨build_hybrid_query (e :: es) parsed page size,
      by simp [hybrid_execute, hfail, Pure.pure, Except.pure]⟩

/-- C3: when the embedding step fails but the engine succeeds, `search`
returns a non-error result tagged `method = keyword_only`; the single
executed query contains no vector clause, carries exactly the plan's
must/filter conditions and sort, and degenerates to `match_all` when the
plan is entirely empty. -/
theorem embedding_failure_keyword_fallback (gen : String → Option (List ℚ))
    (engine : QueryBody → Except String Hits)
    (c : RedisClient Hits) (q : String) (page size : Nat) (u : Bool)
    (parsed : ParseResult) (c0 : RedisClient Hits) (h : Hits)
    (hparse : parse_query_filters (redisService Hits) c q = .ok (parsed, c0))
    (hmiss : c0.respStore ⟨normQuery q, page, parsed.filters⟩ = none)
    (hemb : c0.embStore (normQuery q) = none)
    (hgen : gen q = none)
    (hengine : engine (build_keyword_query parsed page size) = .ok h) :
    hybrid_search gen engine (redisService Hits) c q page size u =
      .ok (some ⟨h, ⟨"keyword_only", false, none⟩⟩, c0,
        [build_keyword_query parsed page size]) ∧
    hasKnn (build_keyword_query parsed page size) = false ∧
    (build_keyword_query parsed page size).sort = sortIfTruthy parsed.sort ∧
    (parsed.filters.must = [] ∧ parsed.filters.filter = [] →
      (build_keyword_query parsed page size).query = .match_all) ∧
    (¬(parsed.filters.must = [] ∧ parsed.filters.filter = []) →
      (build_keyword_query parsed page size).query =
        .boolQ (parsed.filters.must.map .cond) parsed.filters.filter) := by
  refine ⟨?_, keyword_query_no_knn parsed page size, rfl, ?_, ?_⟩
  · rw [search_to_rest gen engine c q page size u parsed c0 hparse hmiss]
    simp only [hybrid_search_rest, embed_none gen c0 q hemb hgen, Bind.bind, Except.bind,
      hybrid_execute, search_keyword_only, hengine, Pure.pure, Except.pure]
  · intro hq
    simp [build_keyword_query, hq]
  · intro hq
    simp [build_keyword_query, hq]

/-- C4: when the engine call fails, `search` returns the failure value
(`None`) with no partial result, makes exactly one engine call (no retry,
no further fallback), and leaves the result cache unchanged. -/
theorem engine_failure_surfaces_no_retry_no_write (gen : String → Option (List ℚ))
    (engine : QueryBody → Except String Hits)
    (c : RedisClient Hits) (q : String) (page size : Nat) (u : Bool)
    (parsed : ParseResult) (c0 : RedisClient Hits) (errc : String)
    (hparse : parse_query_filters (redisService Hits) c q = .ok (parsed, c0))
    (hmiss : c0.respStore ⟨normQuery q, page, parsed.filters⟩ = none)
    (hfail : ∀ b, engine b = .error errc) :
    (hybrid_search gen engine (redisService Hits) c q page size u).map
        (fun out => (out.1, out.2.1.respStore, out.2.2.length)) =
      .ok (none, c.respStore, 1) := by
  obtain ⟨hresp0, _, _, _⟩ := parse_preserves c q parsed c0 hparse
  rw [search_to_rest gen engine c q page size u parsed c0 hparse hmiss]
  obtain ⟨qv, c1, hembed⟩ := embed_ok_shape gen c0 q
  obtain ⟨hresp1, _, _, _⟩ := embed_preserves gen c0 q qv c1 hembed
  obtain ⟨b, hexec⟩ := exec_engine_fail engine c1 parsed q page size u qv errc hfail
  simp only [hybrid_search_rest, hembed, Bind.bind, Except.bind, hexec, Except.map]
  rw [hresp1, hresp0]
  rfl


theorem moneyValue_eq (g : List Char) :
    moneyValue g =
      if g.filter (fun c => c ≠ ',') = [] then .error .valueError
      else .ok (natOfDigits (g.filter (fun c => c ≠ ','))) := rfl

theorem filter_comma_all (g : List Char)
    (hd : g.filter (fun c => c ≠ ',') = []) : ∀ a ∈ g, a = ',' :=
  fun a ha => by simpa using List.filter_eq_nil_iff.mp hd a ha

theorem filter_comma_ex (g : List Char)
    (hd : ¬ g.filter (fun c => c ≠ ',') = []) : ∃ x ∈ g, ¬ x = ',' := by
  by_contra hc
  push_neg at hc
  exact hd (List.filter_eq_nil_iff.mpr (fun a ha => by simpa using hc a ha))

theorem core_error_iff (q : String) :
    parse_query_filters_core q = .error .valueError ↔ moneyDegenerate q = true := by
  simp only [parse_query_filters_core, moneyDegenerate, Bind.bind, Except.bind,
    Pure.pure, Except.pure]
  cases hu : searchFirst (boundMatchAt underKws) (normQuery q).toList with
  | none =>
    cases ho : searchFirst (boundMatchAt overKws) (normQuery q).toList with
    | none =>
      dsimp only
      simp [groupDigitless]
    | some p =>
      obtain ⟨g, kf⟩ := p
      dsimp only
      rw [moneyValue_eq]
      by_cases hd : g.filter (fun c => c ≠ ',') = []
      · rw [if_pos hd]
        simp only [groupDigitless]
        simp
        exact filter_comma_all g hd
      · rw [if_neg hd]
        simp only [groupDigitless]
        simp [hd]
        exact filter_comma_ex g hd
  | some p =>
    obtain ⟨g, kf⟩ := p
    dsimp only
    rw [moneyValue_eq]
    by_cases hd : g.filter (fun c => c ≠ ',') = []
    · rw [if_pos hd]
      simp only [groupDigitless]
      simp
      exact Or.inl (filter_comma_all g hd)
    · rw [if_neg hd]
      cases ho : searchFirst (boundMatchAt overKws) (normQuery q).toList with
      | none =>
        dsimp only
        simp only [groupDigitless]
        simp
        exact filter_comma_ex g hd
      | some p2 =>
        obtain ⟨g2, kf2⟩ := p2
        dsimp only
        rw [moneyValue_eq]
        by_cases hd2 : g2.filter (fun c => c ≠ ',') = []
        · rw [if_pos hd2]
          simp only [groupDigitless]
          simp
          exact Or.inr (filter_comma_all g2 hd2)
        · rw [if_neg hd2]
          simp only [groupDigitless]
          simp
          exact ⟨filter_comma_ex g hd, filter_comma_ex g2 hd2⟩


/-- Repeat-stability of the cached parse: a second call in the state left
by a successful first call returns the same plan. -/
theorem parse_repeat (c : RedisClient Hits) (q : String) (r : ParseResult)
    (c1 : RedisClient Hits)
    (h : parse_query_filters (redisService Hits) c q = .ok (r, c1)) :
    (parse_query_filters (redisService Hits) c1 q).map Prod.fst = .ok r := by
  rw [parse_redis_eq] at h
  rw [parse_redis_eq]
  cases hscr : (if c.getFails (.filterK (normQuery q)) then none
      else c.planStore (normQuery q)) with
  | some r0 =>
    rw [hscr] at h
    simp only [Except.ok.injEq, Prod.mk.injEq] at h
    obtain ⟨h1, h2⟩ := h
    subst h1; subst h2
    simp [hscr, Except.map]
  | none =>
    rw [hscr] at h
    cases hc : parse_query_filters_core q with
    | error e =>
      rw [hc] at h
      cases h
    | ok r0 =>
      rw [hc] at h
      simp only [Except.ok.injEq, Prod.mk.injEq] at h
      obtain ⟨h1, h2⟩ := h
      subst h1
      cases hsf : c.setFails (RKey.filterK (normQuery q)) with
      | true =>
        rw [hsf] at h2
        simp only [reduceIte] at h2
        subst h2
        simp [hscr, hc, Except.map]
      | false =>
        rw [hsf] at h2
        simp only [Bool.false_eq_true, reduceIte] at h2
        subst h2
        dsimp only
        cases hgf : c.getFails (RKey.filterK (normQuery q)) with
        | true => simp [hgf, hc, Except.map, planWrite]
        | false => simp [hgf, Except.map, planWrite]


theorem exec_none (engine : QueryBody → Except String Hits)
    (st1 : RedisClient Hits) (parsed : ParseResult) (q : String)
    (page size : Nat) (u : Bool) :
    hybrid_execute engine (redisService Hits) st1 parsed q page size u none =
      .ok ((search_keyword_only engine parsed page size).1, st1,
        (search_keyword_only engine parsed page size).2) := rfl

/-- Any `some` response produced by the execution stage is tagged as not
served from cache. -/
theorem exec_some_perf (engine : QueryBody → Except String Hits)
    (st1 : RedisClient Hits) (parsed : ParseResult) (q : String)
    (page size : Nat) (u : Bool) (qv : Option (List ℚ))
    (resp : SearchResponse Hits) (c3 : RedisClient Hits) (t3 : List QueryBody)
    (hexec : hybrid_execute engine (redisService Hits) st1 parsed q page size u qv
      = .ok (some resp, c3, t3)) :
    resp.performance.from_cache = false ∧
    (resp.performance.method = "hybrid_semantic" ∨
      resp.performance.method = "keyword_only") := by
  match qv with
  | none =>
    rw [exec_none] at hexec
    simp only [search_keyword_only] at hexec
    cases he : engine (build_keyword_query parsed page size) <;>
      rw [he] at hexec <;>
      simp only [Except.ok.injEq, Prod.mk.injEq] at hexec
    · cases hexec.1
    · obtain ⟨h1, h2, h3⟩ := hexec
      injection h1 with h1
      subst h1
      exact ⟨rfl, Or.inr rfl⟩
  | some [] =>
    have hexec2 : hybrid_execute engine (redisService Hits) st1 parsed q page size u (some []) =
        .ok ((search_keyword_only engine parsed page size).1, st1,
          (search_keyword_only engine parsed page size).2) := rfl
    rw [hexec2] at hexec
    simp only [search_keyword_only] at hexec
    cases he : engine (build_keyword_query parsed page size) <;>
      rw [he] at hexec <;>
      simp only [Except.ok.injEq, Prod.mk.injEq] at hexec
    · cases hexec.1
    · obtain ⟨h1, h2, h3⟩ := hexec
      injection h1 with h1
      subst h1
      exact ⟨rfl, Or.inr rfl⟩
  | some (e :: es) =>
    simp only [hybrid_execute] at hexec
    cases he : engine (build_hybrid_query (e :: es) parsed page size) <;>
      rw [he] at hexec
    · simp only [Pure.pure, Except.pure, Except.ok.injEq, Prod.mk.injEq] at hexec
      cases hexec.1
    · cases hguard : u && decide (page = 1) <;>
        simp only [hguard, Bool.false_eq_true, reduceIte, redis_set_query_eq,
          Bind.bind, Except.bind, Pure.pure, Except.pure, Except.ok.injEq,
          Prod.mk.injEq] at hexec
      · obtain ⟨h1, h2, h3⟩ := hexec
        injection h1 with h1
        subst h1
        exact ⟨rfl, Or.inl rfl⟩
      · cases hsf : st1.setFails (RKey.queryK ⟨normQuery q, page, parsed.filters⟩) <;>
          simp only [hsf, Bool.false_eq_true, reduceIte, Except.ok.injEq,
            Prod.mk.injEq] at hexec <;>
        · obtain ⟨h1, h2, h3⟩ := hexec
          injection h1 with h1
          subst h1
          exact ⟨rfl, Or.inl rfl⟩


/-- C2 (amended): the keyword-only execution path never populates the
result cache — any search whose embedding is unavailable leaves the
result-cache store untouched, regardless of `use_cache` and `page`. -/
theorem keyword_fallback_never_writes_result_cache
    (gen : String → Option (List ℚ)) (engine : QueryBody → Except String Hits)
    (c : RedisClient Hits) (q : String) (page size : Nat) (u : Bool)
    (r : Option (SearchResponse Hits)) (c2 : RedisClient Hits) (t : List QueryBody)
    (hemb : c.embStore (normQuery q) = none) (hgen : gen q = none)
    (hs : hybrid_search gen engine (redisService Hits) c q page size u = .ok (r, c2, t)) :
    c2.respStore = c.respStore := by
  obtain ⟨parsed, c0, hp, hbr⟩ :=
    search_decompose gen engine c q page size u r c2 t hs
  obtain ⟨hresp0, hembs0, _, _⟩ := parse_preserves c q parsed c0 hp
  cases hbr with
  | inl hhit =>
    obtain ⟨rr, _, _, _, hc2, _⟩ := hhit
    rw [hc2, hresp0]
  | inr hrest =>
    obtain ⟨qv, c1, hembed, hexec⟩ :=
      rest_decompose gen engine c0 parsed q page size u (r, c2, t) hrest
    have hn : get_or_generate_embedding gen (redisService Hits) c0 q = .ok (none, c0) :=
      embed_none gen c0 q (hembs0 ▸ hemb) hgen
    rw [hn] at hembed
    injection hembed with hembed
    injection hembed with hqv hc1
    subst hqv; subst hc1
    rw [exec_none] at hexec
    injection hexec with hexec
    simp only [Prod.mk.injEq] at hexec
    obtain ⟨_, hc2, _⟩ := hexec
    rw [← hc2, hresp0]


theorem c8am_part1
    (gen : String → Option (List ℚ)) (engine : QueryBody → Except String Hits)
    (c : RedisClient Hits) (q : String) (page size : Nat) (u : Bool)
    (r : Option (SearchResponse Hits)) (c2 : RedisClient Hits) (t : List QueryBody)
    (key : QueryKey)
    (hs : hybrid_search gen engine (redisService Hits) c q page size u = .ok (r, c2, t))
    (hne : c2.respStore key ≠ c.respStore key) :
    key.page = 1 ∧ u = true ∧ page = 1 := by
  obtain ⟨parsed, c0, hp, hbr⟩ :=
    search_decompose gen engine c q page size u r c2 t hs
  obtain ⟨hresp0, _, _, _⟩ := parse_preserves c q parsed c0 hp
  cases hbr with
  | inl hhit =>
    obtain ⟨rr, _, _, _, hc2, _⟩ := hhit
    exact absurd (by rw [hc2, hresp0]) hne
  | inr hrest =>
    obtain ⟨qv, c1, hembed, hexec⟩ :=
      rest_decompose gen engine c0 parsed q page size u (r, c2, t) hrest
    obtain ⟨hresp1, _, _, _⟩ := embed_preserves gen c0 q qv c1 hembed
    cases exec_respStore_cases engine c1 parsed q page size u qv r c2 t hexec with
    | inl heq => exact absurd (by rw [heq, hresp1, hresp0]) hne
    | inr hw =>
      obtain ⟨hu, hpage1, resp, heq⟩ := hw
      subst hpage1
      by_cases hk : key = ⟨normQuery q, 1, parsed.filters⟩
      · subst hk
        exact ⟨rfl, hu, rfl⟩
      · rw [heq] at hne
        dsimp only at hne
        rw [if_neg hk] at hne
        exact absurd (by rw [hresp1, hresp0]) hne

theorem c8am_part2
    (gen : String → Option (List ℚ)) (engine : QueryBody → Except String Hits)
    (c : RedisClient Hits) (q : String) (size : Nat)
    (resp : SearchResponse Hits) (c2 : RedisClient Hits) (t : List QueryBody)
    (hinv : ∀ k : QueryKey, k.page ≠ 1 → c.respStore k = none)
    (hs : hybrid_search gen engine (redisService Hits) c q 2 size true = .ok (some resp, c2, t)) :
    resp.performance.from_cache = false := by
  obtain ⟨parsed, c0, hp, hbr⟩ :=
    search_decompose gen engine c q 2 size true (some resp) c2 t hs
  obtain ⟨hresp0, _, _, _⟩ := parse_preserves c q parsed c0 hp
  cases hbr with
  | inl hhit =>
    obtain ⟨rr, _, hscr, _, _, _⟩ := hhit
    cases hgf : c0.getFails (RKey.queryK ⟨normQuery q, 2, parsed.filters⟩) with
    | true =>
      rw [hgf] at hscr
      simp only [reduceIte] at hscr
      cases hscr
    | false =>
      rw [hgf] at hscr
      simp only [Bool.false_eq_true, reduceIte] at hscr
      rw [hresp0, hinv ⟨normQuery q, 2, parsed.filters⟩ (by simp)] at hscr
      cases hscr
  | inr hrest =>
    obtain ⟨qv, c1, hembed, hexec⟩ :=
      rest_decompose gen engine c0 parsed q 2 size true (some resp, c2, t) hrest
    exact (exec_some_perf engine c1 parsed q 2 size true qv resp c2 t hexec).1


/-- C7 (amended): for page 1, with the embedding available, the engine
succeeding and the backend storing, `search(q,1,s,true)` twice yields the
same hits and the second call is served from the result cache (method
`cached_full_result`, cache layer `query_result`). -/
theorem first_page_idempotent_caching
    (gen : String → Option (List ℚ)) (engine : QueryBody → Except String Hits)
    (c : RedisClient Hits) (q : String) (size : Nat)
    (plan : ParseResult) (e : ℚ) (es : List ℚ) (h : Hits)
    (hgf : ∀ k, c.getFails k = false) (hsf : ∀ k, c.setFails k = false)
    (hplan : c.planStore (normQuery q) = none)
    (hembs : c.embStore (normQuery q) = none)
    (hcore : parse_query_filters_core q = .ok plan)
    (hresp : c.respStore ⟨normQuery q, 1, plan.filters⟩ = none)
    (hgen : gen q = some (e :: es))
    (heng : engine (build_hybrid_query (e :: es) plan 1 size) = .ok h) :
    (hybrid_search gen engine (redisService Hits) c q 1 size true).bind
      (fun a => (hybrid_search gen engine (redisService Hits) a.2.1 q 1 size true).map
        (fun b => (a.1.map (fun x => x.hits), b.1.map (fun x => (x.hits, x.performance))))) =
    .ok (some h, some (h, ⟨"cached_full_result", true, some "query_result"⟩)) := by
  have h1 : parse_query_filters (redisService Hits) c q =
      .ok (plan, planWrite c (normQuery q) plan) := by
    rw [parse_redis_eq]
    simp [hgf, hsf, hplan, hcore]
  have hm1 : (planWrite c (normQuery q) plan).respStore
      ⟨normQuery q, 1, plan.filters⟩ = none := hresp
  have h2 : get_or_generate_embedding gen (redisService Hits)
      (planWrite c (normQuery q) plan) q =
      .ok (some (e :: es), embWrite (planWrite c (normQuery q) plan) (normQuery q) (e :: es)) := by
    rw [embed_redis_eq]
    simp [planWrite, hgf, hsf, hembs, hgen]
  have h3 : hybrid_execute engine (redisService Hits)
      (embWrite (planWrite c (normQuery q) plan) (normQuery q) (e :: es))
      plan q 1 size true (some (e :: es)) =
      .ok (some ⟨h, ⟨"hybrid_semantic", false, some "none"⟩⟩,
        respWrite (embWrite (planWrite c (normQuery q) plan) (normQuery q) (e :: es))
          ⟨normQuery q, 1, plan.filters⟩ ⟨h, ⟨"hybrid_semantic", false, some "none"⟩⟩,
        [build_hybrid_query (e :: es) plan 1 size]) := by
    simp only [hybrid_execute, heng]
    simp [redis_set_query_eq, embWrite, planWrite, hsf, Bind.bind, Except.bind,
      Pure.pure, Except.pure]
  have hfirst : hybrid_search gen engine (redisService Hits) c q 1 size true =
      .ok (some ⟨h, ⟨"hybrid_semantic", false, some "none"⟩⟩,
        respWrite (embWrite (planWrite c (normQuery q) plan) (normQuery q) (e :: es))
          ⟨normQuery q, 1, plan.filters⟩ ⟨h, ⟨"hybrid_semantic", false, some "none"⟩⟩,
        [build_hybrid_query (e :: es) plan 1 size]) := by
    rw [search_to_rest gen engine c q 1 size true plan (planWrite c (normQuery q) plan) h1 hm1]
    simp only [hybrid_search_rest, h2, Bind.bind, Except.bind, h3]
  have h5 : parse_query_filters (redisService Hits)
      (respWrite (embWrite (planWrite c (normQuery q) plan) (normQuery q) (e :: es))
        ⟨normQuery q, 1, plan.filters⟩ ⟨h, ⟨"hybrid_semantic", false, some "none"⟩⟩) q =
      .ok (plan,
        respWrite (embWrite (planWrite c (normQuery q) plan) (normQuery q) (e :: es))
          ⟨normQuery q, 1, plan.filters⟩ ⟨h, ⟨"hybrid_semantic", false, some "none"⟩⟩) := by
    rw [parse_redis_eq]
    simp [respWrite, embWrite, planWrite, hgf]
  have h6 : hybrid_search gen engine (redisService Hits)
      (respWrite (embWrite (planWrite c (normQuery q) plan) (normQuery q) (e :: es))
        ⟨normQuery q, 1, plan.filters⟩ ⟨h, ⟨"hybrid_semantic", false, some "none"⟩⟩)
      q 1 size true =
      .ok (some ⟨h, ⟨"cached_full_result", true, some "query_result"⟩⟩,
        respWrite (embWrite (planWrite c (normQuery q) plan) (normQuery q) (e :: es))
          ⟨normQuery q, 1, plan.filters⟩ ⟨h, ⟨"hybrid_semantic", false, some "none"⟩⟩,
        []) := by
    simp only [hybrid_search, h5, Bind.bind, Except.bind]
    simp [redis_get_query_eq, respWrite, embWrite, planWrite, hgf, Pure.pure, Except.pure]
  rw [hfirst]
  simp only [Except.bind, h6, Except.map]
  rfl


/-! ## Claim theorems, counterexamples and witnesses -/

/-- C1: with the in-process backend that the factory selects when Redis is
unreachable, every search request raises `AttributeError`, because
`MockCacheService` defines none of the cache methods; cache-boundary error
absorption holds only for the Redis backend, so the code violates the
claim (code bug relative to the spec's "caching must never fail a search
request"). -/
theorem hybrid_search_mock_attribute_error (Hits : Type)
    (gen : String → Option (List ℚ)) (engine : QueryBody → Except String Hits)
    (q : String) (page size : Nat) (u : Bool) :
    hybrid_search gen engine (mockService Hits) () q page size u =
      .error .attributeError := by rfl

/-- C2 counterexample: a successful keyword-only search (embedding failed)
with `use_cache = true` and `page = 1` returns a `keyword_only` response
and leaves the result-cache store completely empty, refuting "populates
the result cache under exactly the same rules as the hybrid path". -/
theorem keyword_path_never_caches_counterexample :
    (hybrid_search genNone engineOk (redisService Nat) (emptyClient Nat) "3 bed" 1 20 true).map
      (fun out => (out.1.map (fun r => r.performance.method), (out.2.1).respStore)) =
      .ok (some "keyword_only", fun _ => none) := by rfl

theorem keyword_fallback_never_writes_result_cache_witness :
    ((emptyClient Nat).embStore (normQuery "3 bed") = none) ∧
    (genNone "3 bed" = none) ∧
    (c2run.2.1.respStore = (emptyClient Nat).respStore) :=
  ⟨rfl, rfl,
    keyword_fallback_never_writes_result_cache genNone engineOk (emptyClient Nat)
      "3 bed" 1 20 true c2run.1 c2run.2.1 c2run.2.2 rfl rfl (by rfl)⟩

theorem embedding_failure_keyword_fallback_witness :
    (parse_query_filters (redisService Nat) (emptyClient Nat) "" =
      .ok (emptyPlanVal, planWrite (emptyClient Nat) (normQuery "") emptyPlanVal)) ∧
    (hybrid_search genNone engineOk (redisService Nat) (emptyClient Nat) "" 1 20 true =
      .ok (some ⟨42, ⟨"keyword_only", false, none⟩⟩,
        planWrite (emptyClient Nat) (normQuery "") emptyPlanVal,
        [build_keyword_query emptyPlanVal 1 20])) :=
  ⟨by rfl,
    (embedding_failure_keyword_fallback genNone engineOk (emptyClient Nat) "" 1 20 true
      emptyPlanVal (planWrite (emptyClient Nat) (normQuery "") emptyPlanVal) 42
      (by rfl) rfl rfl rfl rfl).1⟩

theorem engine_failure_surfaces_no_retry_no_write_witness :
    (parse_query_filters (redisService Nat) (emptyClient Nat) "" =
      .ok (emptyPlanVal, planWrite (emptyClient Nat) (normQuery "") emptyPlanVal)) ∧
    ((hybrid_search genNone engineFail (redisService Nat) (emptyClient Nat) "" 1 20 true).map
      (fun out => (out.1, out.2.1.respStore, out.2.2.length)) =
      .ok (none, (emptyClient Nat).respStore, 1)) :=
  ⟨by rfl,
    engine_failure_surfaces_no_retry_no_write genNone engineFail (emptyClient Nat) "" 1 20 true
      emptyPlanVal (planWrite (emptyClient Nat) (normQuery "") emptyPlanVal) "boom"
      (by rfl) rfl (fun b => rfl)⟩

/-- C5: parsing "3+ bed under 500k in Austin, TX residential" yields
exactly the claimed plan: a lower-bound bedroom condition (≥ 3) and an
upper-bound assessed-value condition (≤ 500000) in `filter`, the
city/state/land-use term conditions in `must`, and no sort. -/
theorem parse_concrete_scenario :
    parse_query_filters_core "3+ bed under 500k in Austin, TX residential" =
      .ok { filters :=
              { must := [Cond.term FIELD_CITY (.str "AUSTIN"),
                         Cond.term FIELD_STATE (.str "TX"),
                         Cond.term FIELD_LANDUSE (.str "RESIDENTIAL")],
                filter := [Cond.range FIELD_BEDS .gte (.int 3),
                           Cond.nestedRange PATH_TAX FIELD_VALUE .lte (.int 500000)] },
            sort := none } := by rfl

/-- C6: the `k` suffix multiplies a monetary bound by 1000 only when the
parsed magnitude is below 10000: "under 500k" and "under 500000" both
yield 500000, "under 5k" yields 5000, and the same holds for the
over/lower-bound pattern; `applyK` is exactly the threshold heuristic. -/
theorem k_suffix_scaling :
    (parse_query_filters_core "under 500k" =
      .ok ⟨⟨[], [Cond.nestedRange PATH_TAX FIELD_VALUE .lte (.int 500000)]⟩, none⟩) ∧
    (parse_query_filters_core "under 500000" =
      .ok ⟨⟨[], [Cond.nestedRange PATH_TAX FIELD_VALUE .lte (.int 500000)]⟩, none⟩) ∧
    (parse_query_filters_core "under 5k" =
      .ok ⟨⟨[], [Cond.nestedRange PATH_TAX FIELD_VALUE .lte (.int 5000)]⟩, none⟩) ∧
    (parse_query_filters_core "over 500k" =
      .ok ⟨⟨[], [Cond.nestedRange PATH_TAX FIELD_VALUE .gte (.int 500000)]⟩, none⟩) ∧
    (parse_query_filters_core "over 500000" =
      .ok ⟨⟨[], [Cond.nestedRange PATH_TAX FIELD_VALUE .gte (.int 500000)]⟩, none⟩) ∧
    (parse_query_filters_core "over 5k" =
      .ok ⟨⟨[], [Cond.nestedRange PATH_TAX FIELD_VALUE .gte (.int 5000)]⟩, none⟩) ∧
    (∀ v : Nat, applyK true v = if v < 10000 then v * 1000 else v) ∧
    (∀ v : Nat, applyK false v = v) := by
  refine ⟨by rfl, by rfl, by rfl, by rfl, by rfl, by rfl, ?_, ?_⟩
  · intro v
    by_cases hv : v < 10000 <;> simp [applyK, hv]
  · intro v
    simp [applyK]

/-- C7 counterexample: at page 2, an immediately repeated
`search(q, 2, s, true)` is not served from the result cache — the second
call re-executes the engine and reports `from_cache = false`, method
`hybrid_semantic` — refuting the claim's "for every page p". -/
theorem page2_second_call_not_cached_counterexample :
    (hybrid_search genOne engineOk (redisService Nat) (emptyClient Nat) "" 2 20 true).bind
      (fun a => (hybrid_search genOne engineOk (redisService Nat) a.2.1 "" 2 20 true).map
        (fun b => b.1.map (fun r => (r.performance.from_cache, r.performance.method)))) =
      .ok (some (false, "hybrid_semantic")) := by rfl

theorem first_page_idempotent_caching_witness :
    (parse_query_filters_core "" = .ok emptyPlanVal) ∧
    ((hybrid_search genOne engineOk (redisService Nat) (emptyClient Nat) "" 1 20 true).bind
      (fun a => (hybrid_search genOne engineOk (redisService Nat) a.2.1 "" 1 20 true).map
        (fun b => (a.1.map (fun x => x.hits), b.1.map (fun x => (x.hits, x.performance))))) =
      .ok (some 42, some (42, ⟨"cached_full_result", true, some "query_result"⟩))) :=
  ⟨by rfl,
    first_page_idempotent_caching genOne engineOk (emptyClient Nat) "" 20 emptyPlanVal
      1 [] 42 (fun k => rfl) (fun k => rfl) rfl rfl (by rfl) rfl (by rfl) (by rfl)⟩

/-- C8 counterexample: a successful search with `use_cache = true` and
`page = 1` that takes the keyword fallback performs no result-cache write
(the entry at its own derived key stays empty), refuting "a successful
search writes to the result cache exactly when use_cache is true and
page == 1". -/
theorem page1_keyword_success_no_write_counterexample :
    (hybrid_search genNone engineOk (redisService Nat) (emptyClient Nat) "tampa" 1 20 true).map
      (fun out => (out.1.isSome, out.2.1.respStore
        ⟨normQuery "tampa", 1, ⟨[Cond.term FIELD_CITY (.str "TAMPA")], []⟩⟩)) =
      .ok (true, none) := by rfl

/-- C8 (amended): only first-page results are ever stored in or served
from the result cache: every result-cache write happens at a page-1 key
with `use_cache = true`, and when the cache holds only first-page entries
a page-2 cached search is never served from the result cache. -/
theorem result_cache_first_page_only :
    (∀ (Hits : Type) (gen : String → Option (List ℚ))
       (engine : QueryBody → Except String Hits)
       (c : RedisClient Hits) (q : String) (page size : Nat) (u : Bool)
       (r : Option (SearchResponse Hits)) (c2 : RedisClient Hits)
       (t : List QueryBody) (key : QueryKey),
       hybrid_search gen engine (redisService Hits) c q page size u = .ok (r, c2, t) →
       c2.respStore key ≠ c.respStore key →
       key.page = 1 ∧ u = true ∧ page = 1) ∧
    (∀ (Hits : Type) (gen : String → Option (List ℚ))
       (engine : QueryBody → Except String Hits)
       (c : RedisClient Hits) (q : String) (size : Nat)
       (resp : SearchResponse Hits) (c2 : RedisClient Hits) (t : List QueryBody),
       (∀ k : QueryKey, k.page ≠ 1 → c.respStore k = none) →
       hybrid_search gen engine (redisService Hits) c q 2 size true = .ok (some resp, c2, t) →
       resp.performance.from_cache = false) :=
  ⟨fun _ gen engine c q page size u r c2 t key hs hne =>
      c8am_part1 gen engine c q page size u r c2 t key hs hne,
   fun _ gen engine c q size resp c2 t hinv hs =>
      c8am_part2 gen engine c q size resp c2 t hinv hs⟩

theorem result_cache_first_page_only_witness :
    (c8run.2.1.respStore ⟨normQuery "", 1, emptyPlanVal.filters⟩ ≠
      (emptyClient Nat).respStore ⟨normQuery "", 1, emptyPlanVal.filters⟩) ∧
    ((⟨normQuery "", 1, emptyPlanVal.filters⟩ : QueryKey).page = 1 ∧
      true = true ∧ (1 : Nat) = 1) ∧
    ((⟨(42 : Nat), ⟨"hybrid_semantic", false, some "none"⟩⟩ :
        SearchResponse Nat).performance.from_cache = false) :=
  ⟨by decide,
   result_cache_first_page_only.1 Nat genOne engineOk (emptyClient Nat) "" 1 20 true
      c8run.1 c8run.2.1 c8run.2.2 ⟨normQuery "", 1, emptyPlanVal.filters⟩
      (by rfl) (by decide),
   result_cache_first_page_only.2 Nat genOne engineOk (emptyClient Nat) "" 20
      ⟨42, ⟨"hybrid_semantic", false, some "none"⟩⟩ c8run2.2.1 c8run2.2.2
      (fun k hk => rfl) (by rfl)⟩

/-- C9 counterexample: the parser is not total — on input "under ," the
monetary pattern captures the digit-free group ",", and
`int(group.replace(',', ''))` raises `ValueError`, so `parse` fails even
through the Redis-backed entry point. -/
theorem parse_value_error_counterexample :
    parse_query_filters (redisService Nat) (emptyClient Nat) "under ," =
      .error .valueError := by rfl

/-- C9 (amended): the parse computation fails exactly when an under/over
monetary pattern captures a digit-free (comma-only) group, and the cached
parse is repeat-deterministic: a second call in the state left by a
successful call returns the identical plan. -/
theorem parse_total_deterministic_amended :
    (∀ q : String,
       parse_query_filters_core q = .error .valueError ↔ moneyDegenerate q = true) ∧
    (∀ (Hits : Type) (c : RedisClient Hits) (q : String) (r : ParseResult)
       (c1 : RedisClient Hits),
       parse_query_filters (redisService Hits) c q = .ok (r, c1) →
       (parse_query_filters (redisService Hits) c1 q).map Prod.fst = .ok r) :=
  ⟨core_error_iff, fun _ c q r c1 h => parse_repeat c q r c1 h⟩

theorem parse_total_deterministic_amended_witness :
    (parse_query_filters (redisService Nat) (emptyClient Nat) "3 bed" =
      .ok (plan3bed, planWrite (emptyClient Nat) (normQuery "3 bed") plan3bed)) ∧
    ((parse_query_filters (redisService Nat)
        (planWrite (emptyClient Nat) (normQuery "3 bed") plan3bed) "3 bed").map Prod.fst =
      .ok plan3bed) :=
  ⟨by rfl,
   parse_total_deterministic_amended.2 Nat (emptyClient Nat) "3 bed" plan3bed
     (planWrite (emptyClient Nat) (normQuery "3 bed") plan3bed) (by rfl)⟩

/-- C10: a fractional bathroom count without `+` is truncated to an
integer exact-match term ("2.5 bath" gives a term with value 2), while
the same count with `+` keeps the fraction as a lower bound ("2.5+ bath"
gives a range with value 5/2), so the two forms disagree numerically. -/
theorem bath_truncation_vs_lower_bound :
    (parse_query_filters_core "2.5 bath" =
      .ok ⟨⟨[Cond.term FIELD_BATHS (.int 2)], []⟩, none⟩) ∧
    (parse_query_filters_core "2.5+ bath" =
      .ok ⟨⟨[], [Cond.range FIELD_BATHS .gte (.rat (mkRat 5 2))]⟩, none⟩) ∧
    (pyInt (mkRat 5 2) = 2) ∧ (mkRat 5 2 ≠ mkRat 2 1) :=
  ⟨by decide, by decide, by decide, by decide⟩

end HomexSearch
